import Mathlib

/-!
# Shallow embedding of `src/lib/nfc_handler.py` (nfc2klipper)

This file embeds the `NfcHandler` class of `src/lib/nfc_handler.py` and
proves properties of its record codec, write-request slot and tag-session
logic.

Modelling conventions:

* Python strings are Lean `String`s; `str.split` and `str.splitlines` are
  re-implemented over `List Char` with Python semantics (`pySplit`,
  `pySplitlines`).
* An NDEF record (`ndef.Record`) is a structure carrying its `type` string,
  its `name`, its text payload (`record.text`, meaningful for text records)
  and its JSON payload.  The raw byte payload handed to `json.loads` is
  modelled by its parse result: `jsonData = none` stands for data on which
  `json.loads` raises, `jsonData = some obj` for data parsing to the JSON
  object `obj`.  JSON object values on this wire format are strings or
  `null`, so an object is an association list `List (String × Option String)`
  (`none` = JSON `null`); `dict.get` on a missing key and on a `null` value
  both yield Python `None`, hence `jsonGet` joins the two layers.
* Exceptions propagating out of a function are modelled with `Except Unit`.
* The mutable fields of `NfcHandler` that the claims touch
  (`status`, `write_spool`, `write_filament`, `write_event`) form the
  `SlotState` structure; `threading.Event` is a `Bool` (set / not set).
  `Event.wait(timeout=30)` is modelled by an oracle `fireTime : Option Nat`
  giving the instant at which some other thread sets the event (`none` if
  it never does during the wait): the wait returns `true` iff the event
  fires within the timeout.
* The hardware tag is a structure: `tag.ndef` is optional; `ndef.records`
  is optional (the code guards `tag.ndef.records is None`); iterating or
  decoding a `None` record list raises.  `raises_on_write` is an
  environment oracle: `True` means the transport raises when
  `tag.ndef.records` is assigned (the `except` branch of
  `_write_to_nfc_tag`).
-/

/-- Python `SPOOL` constant (line 16). -/
def SPOOL : String := "SPOOL"

/-- Python `FILAMENT` constant (line 17). -/
def FILAMENT : String := "FILAMENT"

/-- Python `NDEF_TEXT_TYPE` constant (line 18). -/
def NDEF_TEXT_TYPE : String := "urn:nfc:wkt:T"

/-- Python `NDEF_JSON_TYPE` constant (line 19). -/
def NDEF_JSON_TYPE : String := "application/json"

/-- Python `str.split(sep)` for a one-character separator, over `List Char`:
`"".split(":") = [""]`, separators produce empty fields, no limit. -/
def pySplit (sep : Char) : List Char → List (List Char)
  | [] => [[]]
  | c :: cs =>
    if c = sep then [] :: pySplit sep cs
    else
      match pySplit sep cs with
      | p :: ps => (c :: p) :: ps
      | [] => [[c]]

/-- Python `str.splitlines()` restricted to `\n` line boundaries:
`"".splitlines() = []`, a trailing newline does not produce a final
empty line. -/
def pySplitlines : List Char → List (List Char)
  | [] => []
  | c :: cs =>
    if c = '\n' then [] :: pySplitlines cs
    else
      match pySplitlines cs with
      | p :: ps => (c :: p) :: ps
      | [] => [[c]]

/-- `line.split(":")` lifted to `String`. -/
def splitColon (s : String) : List String := (pySplit ':' s.data).map String.mk

/-- `text.splitlines()` lifted to `String`. -/
def splitlinesStr (s : String) : List String := (pySplitlines s.data).map String.mk

/-- Whether `needle` is a prefix of `hay` (decidable, over chars). -/
def charsHavePrefix (needle hay : List Char) : Bool :=
  match needle, hay with
  | [], _ => true
  | _ :: _, [] => false
  | n :: ns, c :: cs => n = c && charsHavePrefix ns cs

/-- Python `hay.find(needle) != -1`: substring containment. -/
def containsSub (needle : List Char) : List Char → Bool
  | [] => needle.isEmpty
  | c :: cs => charsHavePrefix needle (c :: cs) || containsSub needle cs

/-- `hay.find(needle) != -1` lifted to `String`. -/
def strFindsSub (hay needle : String) : Bool := containsSub needle.data hay.data

/-- A parsed JSON object of the nfc2klipper wire format: keys mapping to a
string or to JSON `null` (`none`). -/
abbrev JsonObj : Type := List (String × Option String)

/-- Python `dict.get(key)` on a parsed JSON object: a missing key and a
`null` value both give `None`. -/
def jsonGet (obj : JsonObj) (key : String) : Option String :=
  (List.lookup key obj).join

/-- An NDEF record as the handler sees it: `type`, `name`, text payload and
JSON payload (the parse result of `record.data`; `none` = `json.loads`
raises on it). -/
structure Record where
  type : String
  name : String
  text : String
  jsonData : Option JsonObj
deriving DecidableEq, Repr

/-- `generate_spool_record` (lines 38-58): builds the JSON record
`{protocol, version, spool, filament}` with type `application/json` and
name `nfc2klipper`.  `version` defaults to `"1.0"` at the call sites. -/
def generate_spool_record (spool filament : Option String) (version : String) : Record :=
  { type := NDEF_JSON_TYPE
    name := "nfc2klipper"
    text := ""
    jsonData := some [("protocol", some "nfc2klipper"), ("version", some version),
                      ("spool", spool), ("filament", filament)] }

/-- The body of the text-record line loop (lines 111-117): split the line on
`:`; if the split has exactly two parts, a left part equal to `SPOOL` sets
the spool accumulator and a left part equal to `FILAMENT` sets the
filament accumulator. -/
def decodeLine (acc : Option String × Option String) (line : String) :
    Option String × Option String :=
  match splitColon line with
  | [l, r] =>
    let acc1 := if l = SPOOL then (some r, acc.2) else acc
    if l = FILAMENT then (acc1.1, some r) else acc1
  | _ => acc

/-- The record loop of `get_data_from_ndef_records` (lines 99-121), with the
`spool` and `filament` accumulators threaded explicitly.  A JSON record
named `nfc2klipper` is parsed (`json.loads` raising models as
`Except.error`) and the loop breaks; a text record has its lines folded
through `decodeLine` and the loop breaks; any other record is skipped. -/
def get_data_loop : List Record → Option String → Option String →
    Except Unit (Option String × Option String)
  | [], spool, filament => .ok (spool, filament)
  | r :: rest, spool, filament =>
    if r.type = NDEF_JSON_TYPE ∧ r.name = "nfc2klipper" then
      match r.jsonData with
      | none => .error ()
      | some obj => .ok (jsonGet obj "spool", jsonGet obj "filament")
    else if r.type = NDEF_TEXT_TYPE then
      .ok ((splitlinesStr r.text).foldl decodeLine (spool, filament))
    else
      get_data_loop rest spool filament

/-- `get_data_from_ndef_records` (lines 69-122): decode the wanted data from
the NDEF records, both accumulators starting at `None`. -/
def get_data_from_ndef_records (records : List Record) :
    Except Unit (Option String × Option String) :=
  get_data_loop records none none

/-- Helper to build a text record as `ndef.TextRecord(text)` does. -/
def mkTextRecord (text : String) : Record :=
  { type := NDEF_TEXT_TYPE, name := "", text := text, jsonData := none }

deriving instance DecidableEq for Except

/-- The `ndef` attribute of a sensed tag: the ordered record list (the code
guards against `records is None`) and the writeability flag. -/
structure Ndef where
  records : Option (List Record)
  is_writeable : Bool
deriving DecidableEq, Repr

/-- A sensed tag: optional `ndef` structure, plus the environment oracle
`raises_on_write` (`true` iff assigning `tag.ndef.records` raises a
transport error, landing in the `except` branch of `_write_to_nfc_tag`). -/
structure Tag where
  ndef : Option Ndef
  raises_on_write : Bool
deriving DecidableEq, Repr

/-- The mutable `NfcHandler` fields the write path touches: `status`,
the write-request slot (`write_spool`, `write_filament`) and the
completion event `write_event` (a `threading.Event`, modelled as set /
not set). -/
structure SlotState where
  status : String
  write_spool : Option String
  write_filament : Option String
  write_event : Bool
deriving DecidableEq, Repr

/-- Python truthiness of an optional string: `None` and `""` are falsy. -/
def truthyOpt : Option String → Bool
  | none => false
  | some s => !(s = "")

/-- `rewrite` step of `_write_to_nfc_tag` (lines 168-176): a record is kept
unless it is the existing JSON `nfc2klipper` record or an old-format text
record whose text contains `SPOOL:`. -/
def keepRecord (r : Record) : Bool :=
  !(r.type = NDEF_JSON_TYPE && r.name = "nfc2klipper") &&
  !(r.type = NDEF_TEXT_TYPE && strFindsSub r.text "SPOOL:")

/-- The record list `_write_to_nfc_tag` assigns to `tag.ndef.records`
(lines 168-178): the kept existing records, in order, followed by one
freshly generated JSON record. -/
def rewriteRecords (records : List Record) (spool filament : Option String) : List Record :=
  records.filter keepRecord ++ [generate_spool_record spool filament "1.0"]

/-- `_write_to_nfc_tag` (lines 164-185): on a writeable tag, replace its
records with `rewriteRecords` and return `True`; a non-writeable (or
`ndef`-less) tag sets status `"Tag is write protected"`; any exception
(`records` being `None` and iterated, or the transport raising on the
assignment) is caught and sets status `"Got error while writing"`; both
failure paths return `False`.  Result: (new handler state, new tag,
return value). -/
def _write_to_nfc_tag (s : SlotState) (tag : Tag) (spool filament : Option String) :
    SlotState × Tag × Bool :=
  match tag.ndef with
  | some nd =>
    if nd.is_writeable then
      match nd.records with
      | some recs =>
        if tag.raises_on_write then
          ({ s with status := "Got error while writing" }, tag, false)
        else
          (s, { tag with ndef := some { nd with records := some (rewriteRecords recs spool filament) } }, true)
      | none =>
        ({ s with status := "Got error while writing" }, tag, false)
    else
      ({ s with status := "Tag is write protected" }, tag, false)
  | none =>
    ({ s with status := "Tag is write protected" }, tag, false)

/-- `_set_write_info` (lines 187-192): under the write lock, store the
request and clear the completion event. -/
def _set_write_info (s : SlotState) (spool filament : Option String) : SlotState :=
  { s with write_spool := spool, write_filament := filament, write_event := false }

/-- `_check_for_write_to_tag` (lines 194-205): under the write lock, if the
stored spool is truthy, attempt the physical write; on success set the
completion event; either way clear both slot fields; return whether a
write was performed.  Result: (new handler state, new tag, `did_write`). -/
def _check_for_write_to_tag (s : SlotState) (tag : Tag) : SlotState × Tag × Bool :=
  if truthyOpt s.write_spool then
    let res := _write_to_nfc_tag s tag s.write_spool s.write_filament
    let s1 := res.1
    let s2 := if res.2.2 then { s1 with write_event := true } else s1
    ({ s2 with write_spool := none, write_filament := none }, res.2.1, res.2.2)
  else
    (s, tag, false)

/-- `Event.wait(timeout)` under the firing oracle: returns `true` iff some
other thread sets the event at a time within the timeout. -/
def eventWait (timeout : Nat) (fireTime : Option Nat) : Bool :=
  match fireTime with
  | some t => t ≤ timeout
  | none => false

/-- `write_to_tag` (lines 124-134): store the request and clear the event
via `_set_write_info`, wait up to 30 time units on the event; on timeout
clear the slot and return `False`.  The returned state is the slot state
as this thread leaves it (concurrent poller effects are composed
separately). -/
def write_to_tag (s : SlotState) (spool filament : Option String) (fireTime : Option Nat) :
    SlotState × Bool :=
  let s1 := _set_write_info s spool filament
  if eventWait 30 fireTime then
    (s1, true)
  else
    (_set_write_info s1 none none, false)

/-- `_check_for_needs_update` (lines 207-216): `true` iff the tag has an
`ndef` with a record list containing a text record whose text contains
`SPOOL:`. -/
def _check_for_needs_update (tag : Tag) : Bool :=
  match tag.ndef with
  | none => false
  | some nd =>
    match nd.records with
    | none => false
    | some recs =>
      recs.any fun r => r.type = NDEF_TEXT_TYPE && strFindsSub r.text "SPOOL:"

/-- `_read_from_tag` (lines 218-226): when a presence callback is
registered, decode the tag's records; if `_check_for_needs_update` holds,
place the decoded payload into the write slot via `_set_write_info`; then
fire the callback with the decoded values.  Decoding a `None` record list
or a malformed JSON record raises (propagates).  Result on success: the
new slot state and the callback argument (`none` when no callback is
registered). -/
def _read_from_tag (s : SlotState) (hasCallback : Bool) (tag : Tag) :
    Except Unit (SlotState × Option (Option String × Option String)) :=
  if hasCallback then
    match tag.ndef with
    | none => .error ()
    | some nd =>
      match nd.records with
      | none => .error ()
      | some recs =>
        match get_data_from_ndef_records recs with
        | .error e => .error e
        | .ok (spool, filament) =>
          let s1 := if _check_for_needs_update tag then _set_write_info s spool filament else s
          .ok (s1, some (spool, filament))
  else
    .ok (s, none)

/-- A sequence of poll ticks, each running `_check_for_write_to_tag` on the
tag sensed at that tick (the inner loop of `run`, line 154, threaded over
the handler state); returns the final state and, per tick, the tag as the
tick leaves it and the tick's return value. -/
def pollDrains : SlotState → List Tag → SlotState × List (Tag × Bool)
  | s, [] => (s, [])
  | s, t :: ts =>
    let r := _check_for_write_to_tag s t
    let rest := pollDrains r.1 ts
    (rest.1, (r.2.1, r.2.2) :: rest.2)

/-- A record the decode loop recognizes (and breaks at): a JSON record
named `nfc2klipper`, or a text record. -/
def recognized (r : Record) : Prop :=
  (r.type = NDEF_JSON_TYPE ∧ r.name = "nfc2klipper") ∨ r.type = NDEF_TEXT_TYPE

instance (r : Record) : Decidable (recognized r) := by
  unfold recognized; infer_instance

/-- The decode loop skips an unrecognized record, leaving the accumulators
untouched. -/
theorem get_data_loop_skip (r : Record) (hr : ¬ recognized r) (rest : List Record)
    (sp fl : Option String) :
    get_data_loop (r :: rest) sp fl = get_data_loop rest sp fl := by
  unfold recognized at hr
  rw [not_or] at hr
  conv_lhs => unfold get_data_loop
  rw [if_neg hr.1, if_neg hr.2]

/-- The decode loop breaks at a recognized record: the records after it are
irrelevant. -/
theorem get_data_loop_break (r : Record) (hr : recognized r) (rest rest' : List Record)
    (sp fl : Option String) :
    get_data_loop (r :: rest) sp fl = get_data_loop (r :: rest') sp fl := by
  by_cases hj : r.type = NDEF_JSON_TYPE ∧ r.name = "nfc2klipper"
  · unfold get_data_loop
    rw [if_pos hj, if_pos hj]
  · have ht : r.type = NDEF_TEXT_TYPE := by
      rcases hr with h | h
      · exact absurd h hj
      · exact h
    unfold get_data_loop
    rw [if_neg hj, if_neg hj, if_pos ht, if_pos ht]

/-- Decoding a list made of an unrecognized prefix, a recognized record and
an arbitrary suffix is decoding the recognized record alone (helper shared
by several claims). -/
theorem get_data_prefix_skip (pre : List Record) (r : Record) (post : List Record)
    (hpre : ∀ x ∈ pre, ¬ recognized x) (hr : recognized r) :
    get_data_from_ndef_records (pre ++ r :: post) = get_data_from_ndef_records [r] := by
  unfold get_data_from_ndef_records
  induction pre with
  | nil => simpa using get_data_loop_break r hr post [] none none
  | cons x xs ih =>
    rw [List.cons_append, get_data_loop_skip x (hpre x (List.mem_cons_self x xs)) _ none none]
    exact ih fun y hy => hpre y (List.mem_cons_of_mem x hy)

/-- C3: for every ordered record sequence, decode stops at the first
recognized record — the first record that is JSON-typed with name
`nfc2klipper` or text-typed — and ignores all records after it (even when
the stopping record leaves fields absent); unrecognized records before the
first match are skipped. -/
theorem decode_stops_at_first_recognized (pre : List Record) (r : Record) (post : List Record)
    (hpre : ∀ x ∈ pre, ¬ recognized x) (hr : recognized r) :
    get_data_from_ndef_records (pre ++ r :: post) = get_data_from_ndef_records [r] :=
  get_data_prefix_skip pre r post hpre hr

/-- Witness for C3: a concrete unrecognized record followed by a spool-only
text record and a further filament text record decodes like the spool-only
record alone — the suffix is ignored even though `filament` stays absent. -/
theorem decode_stops_at_first_recognized_witness :
    get_data_from_ndef_records
        [⟨"text/plain", "", "hello", none⟩, mkTextRecord "SPOOL:5\n",
          mkTextRecord "FILAMENT:9\n"] =
      get_data_from_ndef_records [mkTextRecord "SPOOL:5\n"] ∧
    get_data_from_ndef_records [mkTextRecord "SPOOL:5\n"] = .ok (some "5", none) :=
  ⟨decode_stops_at_first_recognized [⟨"text/plain", "", "hello", none⟩]
      (mkTextRecord "SPOOL:5\n") [mkTextRecord "FILAMENT:9\n"] (by decide) (by decide),
    rfl⟩

/-- C2 (evaluation at the failing inputs): the decode loop breaks at the
FIRST text record, so the mixed-match sequences are NOT order independent:
`[empty_text, full_text]` decodes to `(none, none)` — not `("23","14")` as
the claim and the function's own doctests (lines 86-93 of the source)
state — and `[spool_only, filament_only]` decodes to `("23", none)`, its
reverse to `(none, "14")`. -/
theorem decode_mixed_order_dependent :
    get_data_from_ndef_records [mkTextRecord "", mkTextRecord "SPOOL:23\nFILAMENT:14\n"] =
        .ok (none, none) ∧
    get_data_from_ndef_records [mkTextRecord "SPOOL:23\nFILAMENT:14\n", mkTextRecord ""] =
        .ok (some "23", some "14") ∧
    get_data_from_ndef_records [mkTextRecord "SPOOL:23\n", mkTextRecord "FILAMENT:14\n"] =
        .ok (some "23", none) ∧
    get_data_from_ndef_records [mkTextRecord "FILAMENT:14\n", mkTextRecord "SPOOL:23\n"] =
        .ok (none, some "14") ∧
    get_data_from_ndef_records [mkTextRecord "", mkTextRecord "SPOOL:23\nFILAMENT:14\n"] ≠
        .ok (some "23", some "14") :=
  ⟨rfl, rfl, rfl, rfl, by decide⟩

/-- Counterexample for C4: `line.split(":")` splits on EVERY colon, so the
line `SPOOL:a:b` splits into three parts and is ignored as malformed — the
spool output is NOT set to `a:b` as the claim states. -/
theorem decode_extra_colon_line_ignored :
    splitColon "SPOOL:a:b" = ["SPOOL", "a", "b"] ∧
    get_data_from_ndef_records [mkTextRecord "SPOOL:a:b\n"] = .ok (none, none) ∧
    get_data_from_ndef_records [mkTextRecord "SPOOL:a:b\n"] ≠ .ok (some "a:b", none) :=
  ⟨rfl, rfl, by decide⟩

/-- C4, amended: a text record's body is split into lines and each line is
split on every `:`; only a split with exactly two parts is considered, a
left part `SPOOL` sets the spool output and a left part `FILAMENT` sets
the filament output; any other line — including `SPOOL:a:b`, whose split
has three parts — is ignored. -/
theorem decode_text_line_semantics :
    (∀ acc line r, splitColon line = [SPOOL, r] → decodeLine acc line = (some r, acc.2)) ∧
    (∀ acc line r, splitColon line = [FILAMENT, r] → decodeLine acc line = (acc.1, some r)) ∧
    (∀ acc line l r, splitColon line = [l, r] → l ≠ SPOOL → l ≠ FILAMENT →
      decodeLine acc line = acc) ∧
    (∀ acc line, (splitColon line).length ≠ 2 → decodeLine acc line = acc) ∧
    (∀ t sp fl, get_data_loop [mkTextRecord t] sp fl =
      .ok ((splitlinesStr t).foldl decodeLine (sp, fl))) ∧
    get_data_from_ndef_records [mkTextRecord "SPOOL:a:b\n"] = .ok (none, none) := by
  refine ⟨?_, ?_, ?_, ?_, ?_, rfl⟩
  · intro acc line r h
    simp [decodeLine, h, SPOOL, FILAMENT]
  · intro acc line r h
    simp [decodeLine, h, SPOOL, FILAMENT]
  · intro acc line l r h hl hf
    simp [decodeLine, h, if_neg hl, if_neg hf]
  · intro acc line h
    unfold decodeLine
    cases hsp : splitColon line with
    | nil => rfl
    | cons a tl =>
      cases tl with
      | nil => rfl
      | cons b tl2 =>
        cases tl2 with
        | nil =>
          rw [hsp] at h
          simp at h
        | cons c tl3 => rfl
  · intro t sp fl
    simp [get_data_loop, mkTextRecord, NDEF_TEXT_TYPE, NDEF_JSON_TYPE]

/-- Witness for C4's amended theorem: a well-formed spool line sets the
spool output, and the three-part line from the counterexample passes
through `decode` leaving both outputs absent. -/
theorem decode_text_line_semantics_witness :
    decodeLine (none, none) "SPOOL:77" = (some "77", none) ∧
    decodeLine (some "1", some "2") "SPOOL:a:b" = (some "1", some "2") :=
  ⟨decode_text_line_semantics.1 (none, none) "SPOOL:77" "77" (by decide),
    decode_text_line_semantics.2.2.2.1 (some "1", some "2") "SPOOL:a:b" (by decide)⟩

/-- C8: when the first recognized record is a JSON record named
`nfc2klipper` whose payload `json.loads` cannot parse, decode propagates
the failure to the caller — distinct from the no-data result, it never
returns an `ok` value (in particular not `(none, none)`). -/
theorem decode_malformed_json_raises (pre : List Record) (r : Record) (post : List Record)
    (hpre : ∀ x ∈ pre, ¬ recognized x)
    (ht : r.type = NDEF_JSON_TYPE) (hn : r.name = "nfc2klipper") (hj : r.jsonData = none) :
    get_data_from_ndef_records (pre ++ r :: post) = .error () ∧
    ∀ v, get_data_from_ndef_records (pre ++ r :: post) ≠ .ok v := by
  have h1 : get_data_from_ndef_records (pre ++ r :: post) = get_data_from_ndef_records [r] :=
    get_data_prefix_skip pre r post hpre (Or.inl ⟨ht, hn⟩)
  have h2 : get_data_from_ndef_records [r] = .error () := by
    unfold get_data_from_ndef_records get_data_loop
    rw [if_pos ⟨ht, hn⟩, hj]
  refine ⟨h1.trans h2, fun v hv => ?_⟩
  rw [h1, h2] at hv
  exact Except.noConfusion hv

/-- Witness for C8: a concrete malformed JSON `nfc2klipper` record makes
decode fail. -/
theorem decode_malformed_json_raises_witness :
    get_data_from_ndef_records [⟨"application/json", "nfc2klipper", "", none⟩] =
      .error () :=
  (decode_malformed_json_raises [] ⟨"application/json", "nfc2klipper", "", none⟩ []
      (by simp) rfl rfl rfl).1

/-- `_write_to_nfc_tag` never touches the write slot fields or the
completion event (it only writes `status` and the tag). -/
theorem write_to_nfc_preserves_slot (s : SlotState) (tag : Tag) (sp fl : Option String) :
    (_write_to_nfc_tag s tag sp fl).1.write_spool = s.write_spool ∧
    (_write_to_nfc_tag s tag sp fl).1.write_filament = s.write_filament ∧
    (_write_to_nfc_tag s tag sp fl).1.write_event = s.write_event := by
  unfold _write_to_nfc_tag
  repeat' split
  all_goals exact ⟨rfl, rfl, rfl⟩

/-- With a falsy stored spool the poll-tick servicing does nothing at all. -/
theorem check_not_pending (s : SlotState) (tag : Tag) (h : truthyOpt s.write_spool = false) :
    _check_for_write_to_tag s tag = (s, tag, false) := by
  unfold _check_for_write_to_tag
  rw [h]
  rfl

/-- C1: servicing the write slot while a tag is present.  With no pending
request (falsy stored spool) it returns false and changes nothing, in
particular the completion signal.  With a pending request it clears both
slot fields unconditionally, returns exactly the physical write's
outcome, sets the completion signal when that outcome is success, and
leaves the signal untouched when it is failure.  Consequently the signal
is never newly set by a tick whose physical write failed. -/
theorem check_for_write_slot_contract (s : SlotState) (tag : Tag) :
    (truthyOpt s.write_spool = false → _check_for_write_to_tag s tag = (s, tag, false)) ∧
    (truthyOpt s.write_spool = true →
      (_check_for_write_to_tag s tag).1.write_spool = none ∧
      (_check_for_write_to_tag s tag).1.write_filament = none ∧
      (_check_for_write_to_tag s tag).2.2 =
        (_write_to_nfc_tag s tag s.write_spool s.write_filament).2.2 ∧
      ((_check_for_write_to_tag s tag).2.2 = true →
        (_check_for_write_to_tag s tag).1.write_event = true) ∧
      ((_check_for_write_to_tag s tag).2.2 = false →
        (_check_for_write_to_tag s tag).1.write_event = s.write_event)) ∧
    (s.write_event = false → (_check_for_write_to_tag s tag).2.2 = false →
      (_check_for_write_to_tag s tag).1.write_event = false) := by
  have hpres := write_to_nfc_preserves_slot s tag s.write_spool s.write_filament
  refine ⟨fun h => check_not_pending s tag h, fun h => ?_, fun he hf => ?_⟩
  · unfold _check_for_write_to_tag
    rw [h]
    by_cases hok : (_write_to_nfc_tag s tag s.write_spool s.write_filament).2.2 = true
    · simp [hok]
    · simp only [Bool.not_eq_true] at hok
      simp [hok, hpres.2.2]
  · by_cases h : truthyOpt s.write_spool = true
    · unfold _check_for_write_to_tag at hf ⊢
      rw [h] at hf ⊢
      by_cases hok : (_write_to_nfc_tag s tag s.write_spool s.write_filament).2.2 = true
      · simp [hok] at hf
      · simp only [Bool.not_eq_true] at hok
        simp [hok, hpres.2.2, he]
    · simp only [Bool.not_eq_true] at h
      rw [check_not_pending s tag h]
      exact he

/-- Witness for C1: a concrete pending request on a writeable tag is
serviced — the signal is set, the slot is cleared and true is returned;
and on a write-protected tag the slot is cleared without the signal. -/
theorem check_for_write_slot_contract_witness :
    ((_check_for_write_to_tag ⟨"", some "7", some "8", false⟩
        ⟨some ⟨some [], true⟩, false⟩).1.write_spool = none ∧
      (_check_for_write_to_tag ⟨"", some "7", some "8", false⟩
        ⟨some ⟨some [], true⟩, false⟩).1.write_filament = none) ∧
    (_check_for_write_to_tag ⟨"", some "7", some "8", false⟩
        ⟨some ⟨some [], false⟩, false⟩).1.write_event = false :=
  ⟨⟨((check_for_write_slot_contract ⟨"", some "7", some "8", false⟩
        ⟨some ⟨some [], true⟩, false⟩).2.1 (by decide)).1,
    ((check_for_write_slot_contract ⟨"", some "7", some "8", false⟩
        ⟨some ⟨some [], true⟩, false⟩).2.1 (by decide)).2.1⟩,
    (check_for_write_slot_contract ⟨"", some "7", some "8", false⟩
        ⟨some ⟨some [], false⟩, false⟩).2.2 rfl (by decide)⟩

/-- C6: `write_to_tag` stores the request — overwriting any prior one — and
clears the completion signal (via `_set_write_info`, under the lock), then
waits on the signal with a 30-unit timeout: it returns true iff the signal
fires within 30 time units, and on timeout it clears both slot fields and
returns false. -/
theorem write_to_tag_timeout_contract (s : SlotState) (spool filament : Option String)
    (fireTime : Option Nat) :
    (_set_write_info s spool filament).write_spool = spool ∧
    (_set_write_info s spool filament).write_filament = filament ∧
    (_set_write_info s spool filament).write_event = false ∧
    ((write_to_tag s spool filament fireTime).2 = true ↔
      ∃ t, fireTime = some t ∧ t ≤ 30) ∧
    ((write_to_tag s spool filament fireTime).2 = false →
      (write_to_tag s spool filament fireTime).1.write_spool = none ∧
      (write_to_tag s spool filament fireTime).1.write_filament = none) := by
  refine ⟨rfl, rfl, rfl, ?_, ?_⟩
  · cases fireTime with
    | none => simp [write_to_tag, eventWait]
    | some t =>
      by_cases h : t ≤ 30
      · simp [write_to_tag, eventWait, h]
      · simp [write_to_tag, eventWait, h]
  · intro hfalse
    cases fireTime with
    | none => exact ⟨rfl, rfl⟩
    | some t =>
      by_cases h : t ≤ 30
      · simp [write_to_tag, eventWait, h] at hfalse
      · simp [write_to_tag, eventWait, h, _set_write_info]

/-- Witness for C6: with no servicing (the signal never fires) a concrete
call returns false and leaves the slot empty; with servicing at time 1 it
returns true. -/
theorem write_to_tag_timeout_contract_witness :
    (write_to_tag ⟨"", none, none, false⟩ (some "1") (some "2") none).2 = false ∧
    (write_to_tag ⟨"", none, none, false⟩ (some "1") (some "2") none).1.write_spool = none ∧
    (write_to_tag ⟨"", none, none, false⟩ (some "1") (some "2") none).1.write_filament = none ∧
    (write_to_tag ⟨"", none, none, false⟩ (some "1") (some "2") (some 1)).2 = true :=
  ⟨rfl,
    ((write_to_tag_timeout_contract ⟨"", none, none, false⟩ (some "1") (some "2") none).2.2.2.2
      rfl).1,
    ((write_to_tag_timeout_contract ⟨"", none, none, false⟩ (some "1") (some "2") none).2.2.2.2
      rfl).2,
    (write_to_tag_timeout_contract ⟨"", none, none, false⟩ (some "1") (some "2")
      (some 1)).2.2.2.1.mpr ⟨1, rfl, by norm_num⟩⟩

/-- The existing JSON `nfc2klipper` record test of lines 101 and 171. -/
def isSpoolJsonRecord (r : Record) : Bool :=
  r.type = NDEF_JSON_TYPE && r.name = "nfc2klipper"

/-- The legacy-format text record test of lines 174 and 213. -/
def isLegacySpoolText (r : Record) : Bool :=
  r.type = NDEF_TEXT_TYPE && strFindsSub r.text "SPOOL:"

/-- `keepRecord` keeps exactly the records that are neither the existing
JSON `nfc2klipper` record nor a legacy `SPOOL:` text record. -/
theorem keepRecord_eq (r : Record) :
    keepRecord r = (!isSpoolJsonRecord r && !isLegacySpoolText r) := rfl

/-- C7: writing to a writeable tag replaces its records by the existing
records with the JSON `nfc2klipper` record(s) and the legacy `SPOOL:` text
record(s) removed — relative order preserved (`List.filter`) — followed by
exactly one freshly generated JSON record; the result therefore contains
exactly one JSON `nfc2klipper` record and no text record containing
`SPOOL:`. -/
theorem write_rewrites_records (s : SlotState) (recs : List Record)
    (spool filament : Option String) :
    (_write_to_nfc_tag s (⟨some ⟨some recs, true⟩, false⟩ : Tag) spool filament).2.2 = true ∧
    (_write_to_nfc_tag s (⟨some ⟨some recs, true⟩, false⟩ : Tag) spool filament).2.1.ndef =
      some ⟨some (recs.filter keepRecord ++ [generate_spool_record spool filament "1.0"]),
        true⟩ ∧
    (rewriteRecords recs spool filament).countP isSpoolJsonRecord = 1 ∧
    (rewriteRecords recs spool filament).all (fun x => !isLegacySpoolText x) = true := by
  refine ⟨rfl, rfl, ?_, ?_⟩
  · unfold rewriteRecords
    rw [List.countP_append]
    have h0 : (recs.filter keepRecord).countP isSpoolJsonRecord = 0 := by
      rw [List.countP_eq_zero]
      intro a ha
      have hk := (List.mem_filter.mp ha).2
      rw [keepRecord_eq] at hk
      simp only [Bool.and_eq_true, Bool.not_eq_true'] at hk
      simp [hk.1]
    have h1 : List.countP isSpoolJsonRecord [generate_spool_record spool filament "1.0"] = 1 := by
      simp [List.countP, List.countP.go, isSpoolJsonRecord, generate_spool_record]
    rw [h0, h1]
  · rw [List.all_eq_true]
    intro x hx
    rcases List.mem_append.mp hx with hmem | hmem
    · have hk := (List.mem_filter.mp hmem).2
      rw [keepRecord_eq] at hk
      simp only [Bool.and_eq_true, Bool.not_eq_true'] at hk
      simp [hk.2]
    · rcases List.mem_singleton.mp hmem with rfl
      simp [isLegacySpoolText, generate_spool_record, NDEF_JSON_TYPE, NDEF_TEXT_TYPE]

/-- With a falsy stored spool, any sequence of poll ticks leaves the
handler state — the slot and the completion event included — unchanged,
performs no write, and returns every tag untouched. -/
theorem pollDrains_not_pending (s : SlotState) (tags : List Tag)
    (h : truthyOpt s.write_spool = false) :
    pollDrains s tags = (s, tags.map fun t => (t, false)) := by
  induction tags with
  | nil => rfl
  | cons t ts ih => simp [pollDrains, check_not_pending s t h, ih]

/-- C9: the pending-request test (line 198) is Python truthiness of the
stored spool, so a request whose spool is falsy — the empty string or
`None` — is never treated as pending: after `write_to_tag("", f)` stores
it, every poll tick over any sequence of present tags (writeable or not)
performs no write, leaves every tag untouched and never sets the
completion signal; the signal therefore never fires during the 30-unit
wait (oracle `none`), so the call blocks for the full timeout, clears the
slot and returns false. -/
theorem falsy_spool_never_pending (s : SlotState) (filament : Option String)
    (tags : List Tag) :
    truthyOpt (some "") = false ∧
    truthyOpt none = false ∧
    pollDrains (_set_write_info s (some "") filament) tags =
      (_set_write_info s (some "") filament, tags.map fun t => (t, false)) ∧
    (_set_write_info s (some "") filament).write_event = false ∧
    (write_to_tag s (some "") filament none).2 = false ∧
    (write_to_tag s (some "") filament none).1.write_spool = none ∧
    (write_to_tag s (some "") filament none).1.write_filament = none :=
  ⟨rfl, rfl, pollDrains_not_pending _ tags rfl, rfl, rfl, rfl, rfl⟩

/-- Counterexample for C5: a tag whose only record is the text
`XSPOOL:9` makes `_check_for_needs_update` true (its text contains
`SPOOL:`), so `_read_from_tag` synthesizes a "request" — but the decoded
payload is `(none, none)` (the line's left part is `XSPOOL`, not `SPOOL`),
the stored spool is falsy, and the subsequent drain performs NO write:
the tag keeps its legacy records and never gains a JSON record, contrary
to the claim's "a subsequent drain will rewrite the tag in the current
JSON format". -/
theorem read_legacy_no_rewrite_cex :
    _check_for_needs_update ⟨some ⟨some [mkTextRecord "XSPOOL:9"], true⟩, false⟩ = true ∧
    _read_from_tag ⟨"", none, none, false⟩ true
        ⟨some ⟨some [mkTextRecord "XSPOOL:9"], true⟩, false⟩ =
      .ok (⟨"", none, none, false⟩, some (none, none)) ∧
    _check_for_write_to_tag ⟨"", none, none, false⟩
        ⟨some ⟨some [mkTextRecord "XSPOOL:9"], true⟩, false⟩ =
      (⟨"", none, none, false⟩, ⟨some ⟨some [mkTextRecord "XSPOOL:9"], true⟩, false⟩, false) ∧
    List.countP isSpoolJsonRecord [mkTextRecord "XSPOOL:9"] = 0 :=
  ⟨by decide, by decide, by decide, by decide⟩

/-- C5, amended: decoding a present tag whose records make
`_check_for_needs_update` true places the just-decoded `(spool, filament)`
payload directly into the write slot (via `_set_write_info`, clearing the
completion event) and still fires the presence callback with the decoded
values; a subsequent drain rewrites the tag in the current JSON format
provided the decoded spool is truthy, the tag is writeable and the
transport does not raise. -/
theorem read_legacy_synthesizes_request (s : SlotState) (nd : Ndef) (recs : List Record)
    (tag : Tag) (htag : tag.ndef = some nd) (hrecs : nd.records = some recs)
    (hmig : _check_for_needs_update tag = true) (sp fl : Option String)
    (hdec : get_data_from_ndef_records recs = .ok (sp, fl)) :
    _read_from_tag s true tag = .ok (_set_write_info s sp fl, some (sp, fl)) ∧
    (_set_write_info s sp fl).write_spool = sp ∧
    (_set_write_info s sp fl).write_filament = fl ∧
    (_set_write_info s sp fl).write_event = false ∧
    (truthyOpt sp = true → nd.is_writeable = true → tag.raises_on_write = false →
      _check_for_write_to_tag (_set_write_info s sp fl) tag =
        (⟨s.status, none, none, true⟩,
          { tag with ndef := some { nd with records := some (rewriteRecords recs sp fl) } },
          true)) := by
  refine ⟨?_, rfl, rfl, rfl, ?_⟩
  · unfold _read_from_tag
    rw [htag]
    simp only [hrecs, hdec, hmig, if_true]
  · intro h1 h2 h3
    unfold _check_for_write_to_tag
    have hsp : (_set_write_info s sp fl).write_spool = sp := rfl
    rw [hsp, h1]
    unfold _write_to_nfc_tag
    rw [htag]
    simp only [h2, hrecs, h3, if_true, Bool.false_eq_true, if_false]
    rfl

/-- Witness for C5's amended theorem: a concrete legacy tag with text
`SPOOL:23\nFILAMENT:14\n` has its decoded payload placed in the slot, the
callback fires with `("23","14")`, and the subsequent drain rewrites the
records and sets the completion event. -/
theorem read_legacy_synthesizes_request_witness :
    _read_from_tag ⟨"", none, none, false⟩ true
        ⟨some ⟨some [mkTextRecord "SPOOL:23\nFILAMENT:14\n"], true⟩, false⟩ =
      .ok (_set_write_info ⟨"", none, none, false⟩ (some "23") (some "14"),
        some (some "23", some "14")) ∧
    _check_for_write_to_tag
        (_set_write_info ⟨"", none, none, false⟩ (some "23") (some "14"))
        ⟨some ⟨some [mkTextRecord "SPOOL:23\nFILAMENT:14\n"], true⟩, false⟩ =
      (⟨"", none, none, true⟩,
        ⟨some ⟨some (rewriteRecords [mkTextRecord "SPOOL:23\nFILAMENT:14\n"]
          (some "23") (some "14")), true⟩, false⟩, true) :=
  have h := read_legacy_synthesizes_request ⟨"", none, none, false⟩
    ⟨some [mkTextRecord "SPOOL:23\nFILAMENT:14\n"], true⟩
    [mkTextRecord "SPOOL:23\nFILAMENT:14\n"]
    ⟨some ⟨some [mkTextRecord "SPOOL:23\nFILAMENT:14\n"], true⟩, false⟩
    rfl rfl (by decide) (some "23") (some "14") (by decide)
  ⟨h.1, h.2.2.2.2 (by decide) rfl rfl⟩

/-- Counterexample for C10: external request `("7","8")` is pending (its
submitter waiting, event clear) when the legacy tag
`SPOOL:23\nFILAMENT:14\n` is decoded.  The migration request overwrites
the slot with `("23","14")` — that much of the claim holds — but the next
drain then writes the tag's payload successfully and SETS the completion
event, so the still-waiting submitter's `write_to_tag` returns TRUE (the
event fires at time 1 ≤ 30): it does not time out and return false as the
claim states, even though its payload `("7","8")` was never written (the
rewritten records decode to `("23","14")`). -/
theorem migration_superseded_request_cex :
    _read_from_tag ⟨"", some "7", some "8", false⟩ true
        ⟨some ⟨some [mkTextRecord "SPOOL:23\nFILAMENT:14\n"], true⟩, false⟩ =
      .ok (⟨"", some "23", some "14", false⟩, some (some "23", some "14")) ∧
    (_check_for_write_to_tag ⟨"", some "23", some "14", false⟩
        ⟨some ⟨some [mkTextRecord "SPOOL:23\nFILAMENT:14\n"], true⟩, false⟩).1.write_event =
      true ∧
    (_check_for_write_to_tag ⟨"", some "23", some "14", false⟩
        ⟨some ⟨some [mkTextRecord "SPOOL:23\nFILAMENT:14\n"], true⟩, false⟩).2.2 = true ∧
    (write_to_tag ⟨"", none, none, false⟩ (some "7") (some "8") (some 1)).2 = true ∧
    get_data_from_ndef_records
        (rewriteRecords [mkTextRecord "SPOOL:23\nFILAMENT:14\n"] (some "23") (some "14")) =
      .ok (some "23", some "14") ∧
    (.ok (some "23", some "14") : Except Unit (Option String × Option String)) ≠
      .ok (some "7", some "8") :=
  ⟨by decide, by decide, by decide, by decide, by decide, by decide⟩

/-- C10, amended: decoding a legacy tag while an external request is still
pending overwrites the pending request's spool and filament with the
tag's just-decoded values and clears the completion signal; the external
submitter's payload is discarded (a subsequent successful drain writes
the tag's own payload).  The submitter's outcome is exactly whether the
completion event fires within the 30-unit wait: if the synthesized
migration request is drained successfully before the deadline the event
is set and the submitter's `write_to_tag` returns true despite its
payload never having been written; only if no successful drain occurs in
time does it return false. -/
theorem migration_overwrites_pending_request (s : SlotState) (nd : Ndef)
    (recs : List Record) (tag : Tag) (hpending : truthyOpt s.write_spool = true)
    (htag : tag.ndef = some nd) (hrecs : nd.records = some recs)
    (hmig : _check_for_needs_update tag = true) (sp fl : Option String)
    (hdec : get_data_from_ndef_records recs = .ok (sp, fl)) :
    _read_from_tag s true tag = .ok (_set_write_info s sp fl, some (sp, fl)) ∧
    (_set_write_info s sp fl).write_spool = sp ∧
    (_set_write_info s sp fl).write_filament = fl ∧
    (_set_write_info s sp fl).write_event = false ∧
    (truthyOpt sp = true → nd.is_writeable = true → tag.raises_on_write = false →
      (_check_for_write_to_tag (_set_write_info s sp fl) tag).2.1.ndef =
        some { nd with records := some (rewriteRecords recs sp fl) } ∧
      (_check_for_write_to_tag (_set_write_info s sp fl) tag).1.write_event = true) ∧
    (∀ fireTime, (write_to_tag s s.write_spool s.write_filament fireTime).2 =
      eventWait 30 fireTime) := by
  refine ⟨?_, rfl, rfl, rfl, ?_, ?_⟩
  · unfold _read_from_tag
    rw [htag]
    simp only [hrecs, hdec, hmig, if_true]
  · intro h1 h2 h3
    have hdrain : _check_for_write_to_tag (_set_write_info s sp fl) tag =
        (⟨s.status, none, none, true⟩,
          { tag with ndef := some { nd with records := some (rewriteRecords recs sp fl) } },
          true) := by
      unfold _check_for_write_to_tag
      have hsp : (_set_write_info s sp fl).write_spool = sp := rfl
      rw [hsp, h1]
      unfold _write_to_nfc_tag
      rw [htag]
      simp only [h2, hrecs, h3, if_true, Bool.false_eq_true, if_false]
      rfl
    rw [hdrain]
    exact ⟨rfl, rfl⟩
  · intro fireTime
    unfold write_to_tag
    by_cases hw : eventWait 30 fireTime = true
    · rw [hw]
      rfl
    · simp only [Bool.not_eq_true] at hw
      rw [hw]
      rfl

/-- Witness for C10's amended theorem: external request `("7","8")`
pending, legacy tag `SPOOL:23\nFILAMENT:14\n`; the slot ends up holding
`("23","14")` with the event cleared, the drain writes the tag's payload
and sets the event, and the submitter's wait outcome equals whether the
event fired within 30 units. -/
theorem migration_overwrites_pending_request_witness :
    _read_from_tag ⟨"", some "7", some "8", false⟩ true
        ⟨some ⟨some [mkTextRecord "SPOOL:23\nFILAMENT:14\n"], true⟩, false⟩ =
      .ok (_set_write_info ⟨"", some "7", some "8", false⟩ (some "23") (some "14"),
        some (some "23", some "14")) ∧
    (_check_for_write_to_tag
        (_set_write_info ⟨"", some "7", some "8", false⟩ (some "23") (some "14"))
        ⟨some ⟨some [mkTextRecord "SPOOL:23\nFILAMENT:14\n"], true⟩, false⟩).1.write_event =
      true ∧
    (write_to_tag ⟨"", some "7", some "8", false⟩ (some "7") (some "8") (some 1)).2 =
      eventWait 30 (some 1) :=
  have h := migration_overwrites_pending_request ⟨"", some "7", some "8", false⟩
    ⟨some [mkTextRecord "SPOOL:23\nFILAMENT:14\n"], true⟩
    [mkTextRecord "SPOOL:23\nFILAMENT:14\n"]
    ⟨some ⟨some [mkTextRecord "SPOOL:23\nFILAMENT:14\n"], true⟩, false⟩
    (by decide) rfl rfl (by decide) (some "23") (some "14") (by decide)
  ⟨h.1, (h.2.2.2.2.1 (by decide) rfl rfl).2, h.2.2.2.2.2 (some 1)⟩
